import Mathlib

/-!
Verification development for `src/levanter/models/mistral.py`: the Mistral
configuration record, its conversion to and from the external (HuggingFace)
configuration representation, and the `MistralLMHeadModel` assembly with its
state-dict import and export.

The shallow embedding below translates the Python source.  External building
blocks that the file composes (named axes, linear layers, embedding tables,
the transformer stack, and the torch-style serialization helpers, which live
outside the provided sources) are modelled explicitly; each such definition
carries a doc comment saying what it models.  Python floats that are only
ever copied verbatim are modelled as rationals; PRNG keys are modelled as
natural numbers split deterministically.
-/

set_option autoImplicit false

namespace Mistral

/-- Models `haliax.Axis`: a tensor dimension identified by a symbolic name
together with its size. -/
structure Axis where
  name : String
  size : Nat
deriving DecidableEq

/-- Models `Axis.alias`: same size under a new name. -/
def Axis.alias (a : Axis) (n : String) : Axis := ⟨n, a.size⟩

/-- Models `Axis.resize`: same name with a new size. -/
def Axis.resize (a : Axis) (n : Nat) : Axis := ⟨a.name, n⟩

/-- Embeds the `MistralConfig` dataclass (a frozen `LlamaConfig` subclass;
inherited fields are flattened into this record).  Field defaults follow the
Python defaults.  The two float-valued hyperparameters are modelled as
rationals since this file only ever copies them. -/
structure MistralConfig where
  seq_len : Nat := 8192
  hidden_dim : Nat := 4096
  intermediate_dim : Nat := 14336
  num_layers : Nat := 32
  num_heads : Nat := 32
  num_kv_heads : Nat := 8
  activation_function : String := "silu"
  initializer_range : ℚ := (2 : ℚ) / 100
  layer_norm_epsilon : ℚ := (1 : ℚ) / 1000000
  sliding_window : Nat := 4096
  upcast_attn : Bool := false
  use_flash_attention : Bool := false
  flash_attention_block_size : Option Nat := none
  gradient_checkpointing : Bool := true
  gradient_checkpointing_block_size : Nat := 5
  use_bias : Bool := false
  rope_scaling : Option (List (String × ℚ)) := none
deriving DecidableEq

/-- Embeds the derived `Pos` axis property. -/
def MistralConfig.Pos (c : MistralConfig) : Axis := ⟨"position", c.seq_len⟩

/-- Embeds the derived `KeyPos` axis property (`Pos.alias "key_position"`). -/
def MistralConfig.KeyPos (c : MistralConfig) : Axis := Axis.alias c.Pos ("key_position")

/-- Embeds the derived `Embed` axis property. -/
def MistralConfig.Embed (c : MistralConfig) : Axis := ⟨"embed", c.hidden_dim⟩

/-- Embeds the derived `Heads` axis property. -/
def MistralConfig.Heads (c : MistralConfig) : Axis := ⟨"heads", c.num_heads⟩

/-- Embeds the derived `KVHeads` axis property. -/
def MistralConfig.KVHeads (c : MistralConfig) : Axis := ⟨"kv_heads", c.num_kv_heads⟩

/-- Embeds the derived `Layers` axis property. -/
def MistralConfig.Layers (c : MistralConfig) : Axis := ⟨"layers", c.num_layers⟩

/-- Embeds the derived `Mlp` axis property. -/
def MistralConfig.Mlp (c : MistralConfig) : Axis := ⟨"mlp", c.intermediate_dim⟩

/-- Embeds the derived `HeadSize` axis property (`hidden_dim // num_heads`,
floor division as in Python). -/
def MistralConfig.HeadSize (c : MistralConfig) : Axis :=
  ⟨"head_size", c.hidden_dim / c.num_heads⟩

/-- Modelled from the spec: the construction-time validity requirement on a
`MistralConfig` ("head count must evenly divide hidden size; key/value head
count must evenly divide head count").  The enforcement lives in the base
config class (`levanter.models.llama.LlamaConfig`, not among the provided
sources); the spec and the field docstrings state the invariant. -/
def MistralConfig.WF (c : MistralConfig) : Prop :=
  c.num_heads ∣ c.hidden_dim ∧ c.num_kv_heads ∣ c.num_heads

instance (c : MistralConfig) : Decidable c.WF := by
  unfold MistralConfig.WF; infer_instance

/-- Models the external `transformers.MistralConfig` (`HfMistralConfig`),
restricted to the fields this file reads and writes. -/
structure HfMistralConfig where
  max_position_embeddings : Nat
  hidden_size : Nat
  intermediate_size : Nat
  num_hidden_layers : Nat
  num_attention_heads : Nat
  num_key_value_heads : Nat
  hidden_act : String
  initializer_range : ℚ
  rms_norm_eps : ℚ
  sliding_window : Nat
  vocab_size : Nat
deriving DecidableEq

/-- Embeds `MistralConfig.from_hf_config`: a field-by-field copy from the
external config; every field the copy does not mention keeps its dataclass
default (as in the Python constructor call). -/
def MistralConfig.from_hf_config (hf : HfMistralConfig) : MistralConfig :=
  { seq_len := hf.max_position_embeddings
    hidden_dim := hf.hidden_size
    intermediate_dim := hf.intermediate_size
    num_layers := hf.num_hidden_layers
    num_heads := hf.num_attention_heads
    num_kv_heads := hf.num_key_value_heads
    activation_function := hf.hidden_act
    initializer_range := hf.initializer_range
    layer_norm_epsilon := hf.rms_norm_eps
    sliding_window := hf.sliding_window }

/-- Embeds `MistralConfig.to_hf_config` with `config_overrides = None` (its
default; overrides may not name the explicitly passed fields, since the
Python call would then raise a duplicate-keyword error). -/
def MistralConfig.to_hf_config (c : MistralConfig) (vocab_size : Nat) : HfMistralConfig :=
  { max_position_embeddings := c.seq_len
    hidden_size := c.hidden_dim
    intermediate_size := c.intermediate_dim
    num_hidden_layers := c.num_layers
    num_attention_heads := c.num_heads
    num_key_value_heads := c.num_kv_heads
    hidden_act := c.activation_function
    initializer_range := c.initializer_range
    rms_norm_eps := c.layer_norm_epsilon
    sliding_window := c.sliding_window
    vocab_size := vocab_size }

/-- Models a raw checkpoint tensor: a positional shape together with
row-major flat data. -/
structure Tensor where
  shape : List Nat
  data : List Int
deriving DecidableEq

/-- Models a `haliax.NamedArray`: a list of named axes together with
row-major flat data. -/
structure NamedArray where
  axes : List Axis
  data : List Int
deriving DecidableEq

/-- Forgets the axis names, leaving the positional tensor a checkpoint
stores. -/
def NamedArray.toTensor (a : NamedArray) : Tensor := ⟨a.axes.map Axis.size, a.data⟩

/-- Models `StateDict`: an ordered mapping from dotted string keys to
tensors, represented as an association list with unique keys. -/
abbrev StateDict := List (String × Tensor)

/-- Models Python `dict.__setitem__`: replace in place when the key is
present (keeping its position, as Python dicts do), append otherwise. -/
def dictInsert : StateDict → String → Tensor → StateDict
  | [], k, v => [(k, v)]
  | (k1, v1) :: rest, k, v =>
    if k1 = k then (k1, v) :: rest else (k1, v1) :: dictInsert rest k v

/-- Models Python `dict.update`: insert every entry of the second mapping
into the first, in order. -/
def dictUpdate (d : StateDict) (es : StateDict) : StateDict :=
  es.foldl (fun acc kv => dictInsert acc kv.1 kv.2) d

/-- Models Python `dict.__getitem__` as a partial lookup. -/
def dictLookup : StateDict → String → Option Tensor
  | [], _ => none
  | (k1, v1) :: rest, k => if k1 = k then some v1 else dictLookup rest k

/-- Models Python `dict.copy`: a fresh mapping with the same entries;
updates to the copy do not reach the original. -/
def dictCopy (d : StateDict) : StateDict := d

/-- Models `levanter.compat.torch_serialization.apply_prefix`: join an
optional dotted key prefix onto a leaf key. -/
def apply_prefix : Option String → String → String
  | none, s => s
  | some p, s => p ++ "." ++ s

/-- Models deterministic parameter initialization from a PRNG key: any
fixed function of the key and the element count stands in for the
pseudorandom draw, whose exact values no claim depends on. -/
def initData (key n : Nat) : List Int :=
  (List.range n).map (fun i => ((key + i : Nat) : Int))

/-- Models `haliax.nn.Linear`: input and output axes, a named weight
matrix, and an optional bias vector. -/
structure Linear where
  In : Axis
  Out : Axis
  weight : NamedArray
  bias : Option NamedArray
deriving DecidableEq

/-- Models `haliax.nn.Linear.init`: with `out_first` the weight is stored
with the output axis leading, otherwise with the input axis leading. -/
def Linear.init (In Out : Axis) (key : Nat) (use_bias : Bool) (out_first : Bool) : Linear :=
  { In := In
    Out := Out
    weight := ⟨if out_first then [Out, In] else [In, Out], initData key (Out.size * In.size)⟩
    bias := if use_bias then some ⟨[Out], initData (key + 1) Out.size⟩ else none }

/-- Product of a shape, i.e. the number of elements of a tensor. -/
def shapeProd (l : List Nat) : Nat := l.foldr (fun a b => a * b) 1

/-- Decodes a row-major flat index into a multi-index for the given shape. -/
def idxToMulti : List Nat → Nat → List Nat
  | [], _ => []
  | _ :: ds, i => i / shapeProd ds :: idxToMulti ds (i % shapeProd ds)

/-- Encodes a multi-index into a row-major flat index for the given shape. -/
def multiToIdx : List Nat → List Nat → Nat
  | _ :: ds, j :: js => j * shapeProd ds + multiToIdx ds js
  | _, _ => 0

/-- Bounds check of a multi-index against a shape. -/
def inBounds (shape idx : List Nat) : Bool :=
  (idx.zip shape).all (fun p => p.1 < p.2)

/-- Row-major data of a tensor reindexed from `oldAxes` to `newAxes`:
positions present in both keep their value, new positions are filled with
zero (the stand-in for freshly initialized entries). -/
def resizeAxisData (oldAxes newAxes : List Axis) (data : List Int) : List Int :=
  let oldShape := oldAxes.map Axis.size
  let newShape := newAxes.map Axis.size
  (List.range (shapeProd newShape)).map (fun i =>
    let idx := idxToMulti newShape i
    if inBounds oldShape idx then data.getD (multiToIdx oldShape idx) 0 else 0)

/-- Models `haliax.tree_util.resize_axis` on a single array: every axis
carrying the given axis name is resized to `n`; data is truncated or
zero-padded along that dimension (the PRNG key for fresh rows is dropped,
since no claim depends on the fresh values). -/
def resize_axis (arr : NamedArray) (ax : Axis) (n : Nat) : NamedArray :=
  let newAxes := arr.axes.map (fun a => if a.name = ax.name then Axis.resize a n else a)
  ⟨newAxes, resizeAxisData arr.axes newAxes arr.data⟩

/-- Models `levanter.models.llama.LlamaEmbedding`: the vocabulary axis and
the token-embedding table. -/
structure LlamaEmbedding where
  Vocab : Axis
  token_embeddings : NamedArray
deriving DecidableEq

/-- Models `LlamaEmbedding.init`: a `[Vocab, Embed]` table. -/
def LlamaEmbedding.init (Vocab : Axis) (c : MistralConfig) (key : Nat) : LlamaEmbedding :=
  ⟨Vocab, ⟨[Vocab, c.Embed], initData key (Vocab.size * c.hidden_dim)⟩⟩

/-- Models `LlamaEmbedding.resize_embeddings`: the vocabulary axis is
resized to `new_size` and the table is resized along it. -/
def LlamaEmbedding.resize_embeddings (e : LlamaEmbedding) (new_size : Nat) (_key : Nat) :
    LlamaEmbedding :=
  ⟨e.Vocab.resize new_size, resize_axis e.token_embeddings e.Vocab new_size⟩

/-- Models `levanter.models.llama.LlamaTransformer`.  The transformer
computation and its per-layer parameter layout are outside this file's scope
(the spec delegates them to the shared base implementation), so the
parameters are represented as one stacked tensor serialized under the
`model.layers` key. -/
structure LlamaTransformer where
  config : MistralConfig
  layers : Tensor
deriving DecidableEq

/-- Models `LlamaTransformer.init` over the abstract parameter blob. -/
def LlamaTransformer.init (c : MistralConfig) (key : Nat) : LlamaTransformer :=
  ⟨c, ⟨[c.num_layers], initData key c.num_layers⟩⟩

/-- Embeds the `MistralLMHeadModel` equinox module: transformer stack,
embedding table, output projection. -/
structure MistralLMHeadModel where
  transformer : LlamaTransformer
  embeddings : LlamaEmbedding
  lm_head : Linear
deriving DecidableEq

/-- Embeds the `config` property. -/
def MistralLMHeadModel.config (m : MistralLMHeadModel) : MistralConfig :=
  m.transformer.config

/-- Embeds the `Vocab` property (`self.embeddings.Vocab`). -/
def MistralLMHeadModel.Vocab (m : MistralLMHeadModel) : Axis := m.embeddings.Vocab

/-- Embeds the `vocab_size` property (`self.Vocab.size`). -/
def MistralLMHeadModel.vocab_size (m : MistralLMHeadModel) : Nat := m.Vocab.size

/-- Embeds `MistralLMHeadModel.init`: `jrandom.split` is modelled by handing
the transformer the key and the embedding/lm-head the successor key; the
lm-head is a bias-free linear layer with the output (vocabulary) axis
first. -/
def MistralLMHeadModel.init (Vocab : Axis) (c : MistralConfig) (key : Nat) :
    MistralLMHeadModel :=
  let k_t := key
  let k_emb := key + 1
  { transformer := LlamaTransformer.init c k_t
    embeddings := LlamaEmbedding.init Vocab c k_emb
    lm_head := Linear.init c.Embed Vocab k_emb false true }

/-- Embeds `MistralLMHeadModel.resize_vocab`: the embedding table is resized,
the lm-head weight is resized along the vocabulary axis via
`hax.tree_util.resize_axis`, and `dataclasses.replace` rebuilds the lm-head
and then the model, leaving the transformer field untouched. -/
def MistralLMHeadModel.resize_vocab (m : MistralLMHeadModel) (new_size : Nat) (key : Nat) :
    MistralLMHeadModel :=
  let new_Vocab := m.Vocab.resize new_size
  let k1 := key
  let new_embeddings := m.embeddings.resize_embeddings new_size k1
  let new_lm_matrix := resize_axis m.lm_head.weight m.Vocab new_size
  let new_lm_head : Linear :=
    { m.lm_head with Out := new_Vocab, weight := new_lm_matrix }
  { m with embeddings := new_embeddings, lm_head := new_lm_head }

/-- Transposes row-major data of a `[rows, cols]` matrix into row-major
data of the `[cols, rows]` matrix. -/
def transpose2D (rows cols : Nat) (data : List Int) : List Int :=
  (List.range (cols * rows)).map (fun i => data.getD ((i % rows) * cols + i / rows) 0)

/-- Modelled from the spec: `flatten_linear_layers`
(`levanter.compat.torch_serialization`, not among the provided sources)
reshapes a linear layer's weight from the named in-memory layout into the
fixed two-dimensional checkpoint layout — output dimension first when
`out_dims_first_in_dict` — under the `<pfx>.weight` key, with the bias, when
present, flat under `<pfx>.bias`. -/
def flatten_linear_layers (pfx : String) (layer : Linear) (out_dims_first_in_dict : Bool) :
    StateDict :=
  let O := layer.Out.size
  let I := layer.In.size
  let storedOutFirst := layer.weight.axes = [layer.Out, layer.In]
  let w : Tensor :=
    if out_dims_first_in_dict then
      ⟨[O, I], if storedOutFirst then layer.weight.data else transpose2D I O layer.weight.data⟩
    else
      ⟨[I, O], if storedOutFirst then transpose2D O I layer.weight.data else layer.weight.data⟩
  let weightEntry := ( apply_prefix (some pfx) ("weight"), w)
  match layer.bias with
  | none => [weightEntry]
  | some b => [weightEntry, ( apply_prefix (some pfx) ("bias"), (⟨[O], b.data⟩ : Tensor))]

/-- Modelled from the spec: `unflatten_linear_layers`
(`levanter.compat.torch_serialization`, not among the provided sources) is
the inverse reshape: it reads the two-dimensional checkpoint tensor for the
template layer out of the state dict and returns a mapping from the same
keys to tensors in the template's named layout; a missing key or a shape
that disagrees with the template is a fatal load error, modelled as an
empty result (the subsequent field load then fails). -/
def unflatten_linear_layers (pfx : String) (sd : StateDict) (layer : Linear)
    (out_dims_first_in_dict : Bool) : StateDict :=
  let O := layer.Out.size
  let I := layer.In.size
  let storedOutFirst := layer.weight.axes = [layer.Out, layer.In]
  let namedShape := layer.weight.axes.map Axis.size
  let wkey := apply_prefix (some pfx) ("weight")
  match dictLookup sd wkey with
  | none => []
  | some t =>
    let flatShape : List Nat := if out_dims_first_in_dict then [O, I] else [I, O]
    if t.shape = flatShape then
      let wdata :=
        if out_dims_first_in_dict then
          (if storedOutFirst then t.data else transpose2D O I t.data)
        else
          (if storedOutFirst then transpose2D I O t.data else t.data)
      let weightEntry := (wkey, (⟨namedShape, wdata⟩ : Tensor))
      match layer.bias with
      | none => [weightEntry]
      | some b =>
        match dictLookup sd ( apply_prefix (some pfx) ("bias")) with
        | some tb =>
          if tb.shape = [O] then
            [weightEntry, ( apply_prefix (some pfx) ("bias"), (⟨b.axes.map Axis.size, tb.data⟩ : Tensor))]
          else []
        | none => []
    else []

/-- Embeds `_state_dict_key_map`: the `transformer` field is serialized
under `model` and the `embeddings` field is flattened into the parent
prefix. -/
def MistralLMHeadModel.state_dict_key_map (_m : MistralLMHeadModel) :
    List (String × Option String) :=
  [("transformer", some ("model")), ("embeddings", none)]

/-- Modelled from the spec: the default
`StateDictSerializationMixin.update_state_dict` (not among the provided
sources) serializes every field under the documented prefix convention and
`_state_dict_key_map`: the transformer parameters under `model.layers`, the
embedding table (whose map entry is `None`, and which internally names its
table `model.embed_tokens`) under `model.embed_tokens.weight`, and the
lm-head in its named layout under `lm_head.weight` (plus `lm_head.bias`
when a bias exists). -/
def MistralLMHeadModel.mixin_update_state_dict (m : MistralLMHeadModel) (d : StateDict)
    (pfx : Option String) : StateDict :=
  dictUpdate d
    ([( apply_prefix pfx ("model.layers"), m.transformer.layers),
      ( apply_prefix pfx ("model.embed_tokens.weight"), m.embeddings.token_embeddings.toTensor),
      ( apply_prefix pfx ("lm_head.weight"), m.lm_head.weight.toTensor)]
     ++ (match m.lm_head.bias with
         | none => []
         | some b => [( apply_prefix pfx ("lm_head.bias"), b.toTensor)]))

/-- Modelled from the spec: the default
`StateDictSerializationMixin.from_state_dict` (not among the provided
sources) reads every field back from the same keys, checking each tensor's
shape against the template module; any missing key or shape mismatch is a
fatal load error, modelled as `none`. -/
def MistralLMHeadModel.mixin_from_state_dict (m : MistralLMHeadModel) (d : StateDict)
    (pfx : Option String) : Option MistralLMHeadModel :=
  match dictLookup d ( apply_prefix pfx ("model.layers")),
        dictLookup d ( apply_prefix pfx ("model.embed_tokens.weight")),
        dictLookup d ( apply_prefix pfx ("lm_head.weight")) with
  | some t1, some t2, some t3 =>
    if t1.shape = m.transformer.layers.shape then
      if t2.shape = m.embeddings.token_embeddings.axes.map Axis.size then
        if t3.shape = m.lm_head.weight.axes.map Axis.size then
          let w : NamedArray := ⟨m.lm_head.weight.axes, t3.data⟩
          match m.lm_head.bias with
          | none =>
            some ⟨⟨m.transformer.config, t1⟩,
                  ⟨m.embeddings.Vocab, ⟨m.embeddings.token_embeddings.axes, t2.data⟩⟩,
                  ⟨m.lm_head.In, m.lm_head.Out, w, none⟩⟩
          | some b =>
            match dictLookup d ( apply_prefix pfx ("lm_head.bias")) with
            | some tb =>
              if tb.shape = b.axes.map Axis.size then
                some ⟨⟨m.transformer.config, t1⟩,
                      ⟨m.embeddings.Vocab, ⟨m.embeddings.token_embeddings.axes, t2.data⟩⟩,
                      ⟨m.lm_head.In, m.lm_head.Out, w, some ⟨b.axes, tb.data⟩⟩⟩
              else none
            | none => none
        else none
      else none
    else none
  | _, _, _ => none

/-- Embeds the body of `update_state_dict` up to the final write into the
caller's dict: `my_dict` starts empty, the mixin default serializes every
field into it, and the flattened lm-head entries then overwrite the named
ones. -/
def MistralLMHeadModel.my_state_dict (m : MistralLMHeadModel) (pfx : Option String) :
    StateDict :=
  let my_dict : StateDict := []
  let my_dict := m.mixin_update_state_dict my_dict pfx
  dictUpdate my_dict (flatten_linear_layers ( apply_prefix pfx ("lm_head")) m.lm_head true)

/-- Embeds `MistralLMHeadModel.update_state_dict`.  The Python code mutates
the `state_dict` argument in place (`state_dict.update(my_dict)`) and
returns it, so the returned mapping is also the argument's final state. -/
def MistralLMHeadModel.update_state_dict (m : MistralLMHeadModel) (state_dict : StateDict)
    (pfx : Option String) : StateDict :=
  dictUpdate state_dict (m.my_state_dict pfx)

/-- Embeds `MistralLMHeadModel.from_state_dict`.  The body copies the
incoming mapping, updates the copy with the unflattened lm-head entries
(read from the original mapping), and hands the copy to the mixin default
load.  The result is the loaded model paired with the final state of the
`state_dict` argument, which no statement of the body writes to. -/
def MistralLMHeadModel.from_state_dict (m : MistralLMHeadModel) (state_dict : StateDict)
    (pfx : Option String) : Option MistralLMHeadModel × StateDict :=
  let d := dictCopy state_dict
  let d := dictUpdate d
    (unflatten_linear_layers ( apply_prefix pfx ("lm_head")) state_dict m.lm_head true)
  (m.mixin_from_state_dict d pfx, state_dict)

/-- Concrete small configuration used to instantiate the general theorems:
two hidden dimensions, one head, one layer. -/
def c0 : MistralConfig :=
  { seq_len := 4, hidden_dim := 2, intermediate_dim := 4, num_layers := 1,
    num_heads := 1, num_kv_heads := 1 }

/-- Concrete vocabulary axis of size three. -/
def V0 : Axis := ⟨"vocab", 3⟩

/-- Concrete model built by `init` from `c0` and `V0`. -/
def m0 : MistralLMHeadModel := MistralLMHeadModel.init V0 c0 0

/-- Concrete one-entry state dict whose key none of the model's
serialized keys collides with. -/
def d1x : StateDict := [("x", ⟨[1], [7]⟩)]

theorem dictLookup_insert_self (d : StateDict) (k : String) (v : Tensor) :
    dictLookup (dictInsert d k v) k = some v := by
  induction d with
  | nil => simp [dictInsert, dictLookup]
  | cons kv rest ih =>
    obtain ⟨k1, v1⟩ := kv
    by_cases h : k1 = k
    · simp [dictInsert, dictLookup, h]
    · simp [dictInsert, dictLookup, h, ih]

theorem dictLookup_insert_ne (d : StateDict) (k1 k : String) (v : Tensor) (h : k1 ≠ k) :
    dictLookup (dictInsert d k1 v) k = dictLookup d k := by
  induction d with
  | nil => simp [dictInsert, dictLookup, h]
  | cons kv rest ih =>
    obtain ⟨k2, v2⟩ := kv
    by_cases h2 : k2 = k1
    · subst h2
      simp [dictInsert, dictLookup, h]
    · by_cases h3 : k2 = k
      · simp [dictInsert, dictLookup, h2, h3, Ne.symm h]
      · simp [dictInsert, dictLookup, h2, h3, ih]

theorem dictLookup_update_of_notin (es : StateDict) (d : StateDict) (k : String)
    (h : k ∉ es.map Prod.fst) :
    dictLookup (dictUpdate d es) k = dictLookup d k := by
  induction es generalizing d with
  | nil => rfl
  | cons kv rest ih =>
    simp only [List.map_cons, List.mem_cons, not_or] at h
    have step : dictUpdate d (kv :: rest) = dictUpdate (dictInsert d kv.1 kv.2) rest := rfl
    rw [step, ih _ h.2, dictLookup_insert_ne _ _ _ _ (Ne.symm h.1)]

theorem apply_prefix_ne (p : Option String) {a b : String} (h : a ≠ b) :
    apply_prefix p a ≠ apply_prefix p b := by
  cases p with
  | none => exact h
  | some q =>
    intro heq
    apply h
    apply String.ext
    have h2 := congrArg String.data heq
    simp [ apply_prefix, String.data_append] at h2
    exact h2

theorem apply_prefix_weight (p : Option String) :
    apply_prefix (some ( apply_prefix p ("lm_head"))) ("weight")
      = apply_prefix p ("lm_head.weight") := by
  cases p with
  | none => decide
  | some q =>
    apply String.ext
    simp [ apply_prefix, String.data_append]

/-- C2: converting an external (HuggingFace) Mistral config to the internal
`MistralConfig` via `from_hf_config` and back via `to_hf_config` yields, on
the shared field subset (max position, hidden size, intermediate size,
layer count, head count, kv-head count, activation name, initializer range,
norm epsilon, sliding window), exactly the original values. -/
theorem hf_config_roundtrip (hf : HfMistralConfig) (v : Nat) :
    ((MistralConfig.from_hf_config hf).to_hf_config v).max_position_embeddings
        = hf.max_position_embeddings
    ∧ ((MistralConfig.from_hf_config hf).to_hf_config v).hidden_size = hf.hidden_size
    ∧ ((MistralConfig.from_hf_config hf).to_hf_config v).intermediate_size = hf.intermediate_size
    ∧ ((MistralConfig.from_hf_config hf).to_hf_config v).num_hidden_layers = hf.num_hidden_layers
    ∧ ((MistralConfig.from_hf_config hf).to_hf_config v).num_attention_heads
        = hf.num_attention_heads
    ∧ ((MistralConfig.from_hf_config hf).to_hf_config v).num_key_value_heads
        = hf.num_key_value_heads
    ∧ ((MistralConfig.from_hf_config hf).to_hf_config v).hidden_act = hf.hidden_act
    ∧ ((MistralConfig.from_hf_config hf).to_hf_config v).initializer_range = hf.initializer_range
    ∧ ((MistralConfig.from_hf_config hf).to_hf_config v).rms_norm_eps = hf.rms_norm_eps
    ∧ ((MistralConfig.from_hf_config hf).to_hf_config v).sliding_window = hf.sliding_window :=
  ⟨rfl, rfl, rfl, rfl, rfl, rfl, rfl, rfl, rfl, rfl⟩

/-- C6: `from_hf_config` is a one-to-one field rename/copy: each internal
field in the shared subset equals the corresponding external field exactly;
in particular `seq_len` is set to the externally supplied maximum-position
value whatever its magnitude (the quantifier ranges over all values,
arbitrarily large ones included). -/
theorem from_hf_config_copies (hf : HfMistralConfig) :
    (MistralConfig.from_hf_config hf).seq_len = hf.max_position_embeddings
    ∧ (MistralConfig.from_hf_config hf).hidden_dim = hf.hidden_size
    ∧ (MistralConfig.from_hf_config hf).intermediate_dim = hf.intermediate_size
    ∧ (MistralConfig.from_hf_config hf).num_layers = hf.num_hidden_layers
    ∧ (MistralConfig.from_hf_config hf).num_heads = hf.num_attention_heads
    ∧ (MistralConfig.from_hf_config hf).num_kv_heads = hf.num_key_value_heads
    ∧ (MistralConfig.from_hf_config hf).activation_function = hf.hidden_act
    ∧ (MistralConfig.from_hf_config hf).initializer_range = hf.initializer_range
    ∧ (MistralConfig.from_hf_config hf).layer_norm_epsilon = hf.rms_norm_eps
    ∧ (MistralConfig.from_hf_config hf).sliding_window = hf.sliding_window :=
  ⟨rfl, rfl, rfl, rfl, rfl, rfl, rfl, rfl, rfl, rfl⟩

/-- C3: every well-formed `MistralConfig` satisfies the divisibility
invariant (head count divides hidden size, kv-head count divides head
count), and the derived named axes agree with the scalar fields; in
particular `HeadSize.size * num_heads = hidden_dim`. -/
theorem config_invariant_axes (c : MistralConfig) (h : c.WF) :
    (c.num_heads ∣ c.hidden_dim ∧ c.num_kv_heads ∣ c.num_heads)
    ∧ c.Pos = ⟨"position", c.seq_len⟩
    ∧ c.KeyPos = ⟨"key_position", c.seq_len⟩
    ∧ c.Embed = ⟨"embed", c.hidden_dim⟩
    ∧ c.Heads = ⟨"heads", c.num_heads⟩
    ∧ c.KVHeads = ⟨"kv_heads", c.num_kv_heads⟩
    ∧ c.Layers = ⟨"layers", c.num_layers⟩
    ∧ c.Mlp = ⟨"mlp", c.intermediate_dim⟩
    ∧ c.HeadSize.size * c.num_heads = c.hidden_dim :=
  ⟨h, rfl, rfl, rfl, rfl, rfl, rfl, rfl, Nat.div_mul_cancel h.1⟩

/-- Witness for C3 at the concrete configuration `c0`. -/
theorem config_invariant_axes_witness :
    c0.WF
    ∧ ((c0.num_heads ∣ c0.hidden_dim ∧ c0.num_kv_heads ∣ c0.num_heads)
       ∧ c0.Pos = ⟨"position", c0.seq_len⟩
       ∧ c0.KeyPos = ⟨"key_position", c0.seq_len⟩
       ∧ c0.Embed = ⟨"embed", c0.hidden_dim⟩
       ∧ c0.Heads = ⟨"heads", c0.num_heads⟩
       ∧ c0.KVHeads = ⟨"kv_heads", c0.num_kv_heads⟩
       ∧ c0.Layers = ⟨"layers", c0.num_layers⟩
       ∧ c0.Mlp = ⟨"mlp", c0.intermediate_dim⟩
       ∧ c0.HeadSize.size * c0.num_heads = c0.hidden_dim) :=
  ⟨by decide, config_invariant_axes c0 (by decide)⟩

/-- C5: `init` produces an output-projection (lm-head) weight whose
dimensions are vocabulary size by hidden size, vocabulary (output) axis
first, and whose output axis is the given vocabulary axis. -/
theorem init_lm_head_shape (V : Axis) (c : MistralConfig) (k : Nat) :
    (MistralLMHeadModel.init V c k).lm_head.weight.axes = [V, c.Embed]
    ∧ (MistralLMHeadModel.init V c k).lm_head.weight.toTensor.shape = [V.size, c.hidden_dim]
    ∧ (MistralLMHeadModel.init V c k).lm_head.weight.data.length = V.size * c.hidden_dim
    ∧ (MistralLMHeadModel.init V c k).lm_head.Out = V := by
  refine ⟨rfl, rfl, ?_, rfl⟩
  simp [MistralLMHeadModel.init, Linear.init, initData, MistralConfig.Embed]

/-- C4: `resize_vocab` with new size `N` yields an embedding table and an
output projection whose vocabulary axis has size exactly `N` (same axis
name), leaving every other dimension of those tensors unchanged. -/
theorem resize_vocab_dims (m : MistralLMHeadModel) (N k : Nat) (A B : Axis)
    (hw : m.lm_head.weight.axes = [m.Vocab, A]) (hA : A.name ≠ m.Vocab.name)
    (he : m.embeddings.token_embeddings.axes = [m.Vocab, B]) (hB : B.name ≠ m.Vocab.name) :
    (m.resize_vocab N k).lm_head.weight.axes = [m.Vocab.resize N, A]
    ∧ (m.resize_vocab N k).embeddings.token_embeddings.axes = [m.Vocab.resize N, B]
    ∧ (m.Vocab.resize N).size = N
    ∧ (m.Vocab.resize N).name = m.Vocab.name := by
  refine ⟨?_, ?_, rfl, rfl⟩
  · show (resize_axis m.lm_head.weight m.Vocab N).axes = _
    simp [resize_axis, hw, hA, Axis.resize]
  · show (resize_axis m.embeddings.token_embeddings m.embeddings.Vocab N).axes = _
    have he2 : m.embeddings.token_embeddings.axes = [m.embeddings.Vocab, B] := he
    have hB2 : B.name ≠ m.embeddings.Vocab.name := hB
    simp [resize_axis, he2, hB2, Axis.resize, MistralLMHeadModel.Vocab]

/-- Witness for C4 at the concrete model `m0` resized to five. -/
theorem resize_vocab_dims_witness :
    (m0.lm_head.weight.axes = [m0.Vocab, ⟨"embed", 2⟩]
     ∧ Axis.name ⟨"embed", 2⟩ ≠ m0.Vocab.name
     ∧ m0.embeddings.token_embeddings.axes = [m0.Vocab, ⟨"embed", 2⟩]
     ∧ Axis.name ⟨"embed", 2⟩ ≠ m0.Vocab.name)
    ∧ ((m0.resize_vocab 5 7).lm_head.weight.axes = [m0.Vocab.resize 5, ⟨"embed", 2⟩]
       ∧ (m0.resize_vocab 5 7).embeddings.token_embeddings.axes
           = [m0.Vocab.resize 5, ⟨"embed", 2⟩]
       ∧ (m0.Vocab.resize 5).size = 5
       ∧ (m0.Vocab.resize 5).name = m0.Vocab.name) :=
  ⟨⟨by decide, by decide, by decide, by decide⟩,
   resize_vocab_dims m0 5 7 ⟨"embed", 2⟩ ⟨"embed", 2⟩ (by decide) (by decide) (by decide)
     (by decide)⟩

/-- C9: models produced by `init`, and models produced by `resize_vocab`,
have an lm-head output axis equal to the embedding table's vocabulary axis,
so the `vocab_size` property equals the output projection's vocabulary
dimension. -/
theorem vocab_head_alignment (V : Axis) (c : MistralConfig) (k : Nat)
    (m : MistralLMHeadModel) (N k2 : Nat) :
    ((MistralLMHeadModel.init V c k).lm_head.Out = (MistralLMHeadModel.init V c k).Vocab
     ∧ (MistralLMHeadModel.init V c k).vocab_size
         = (MistralLMHeadModel.init V c k).lm_head.Out.size)
    ∧ ((m.resize_vocab N k2).lm_head.Out = (m.resize_vocab N k2).Vocab
       ∧ (m.resize_vocab N k2).vocab_size = (m.resize_vocab N k2).lm_head.Out.size) :=
  ⟨⟨rfl, rfl⟩, ⟨rfl, rfl⟩⟩

/-- C10: `resize_vocab` returns a model whose transformer component is the
identical, unmodified value from the original model. -/
theorem resize_vocab_keeps_transformer (m : MistralLMHeadModel) (N k : Nat) :
    (m.resize_vocab N k).transformer = m.transformer := rfl

/-- C7 counterexample: `update_state_dict` does not leave its `state_dict`
argument unchanged.  The Python body ends with `state_dict.update(my_dict);
return state_dict`, mutating the passed dict in place, so the returned
mapping is the argument's final state; starting from the empty mapping it
is no longer empty. -/
theorem update_state_dict_mutates :
    MistralLMHeadModel.update_state_dict m0 [] none ≠ [] := by decide

/-- C7 (amended): all operations are deterministic functions of their
arguments, and the only mutable inputs anywhere in the file are the
state-dict mappings: `from_state_dict` leaves its `state_dict` argument
unchanged, while `update_state_dict` mutates its `state_dict` argument in
place, inserting or overwriting exactly the keys it serializes and leaving
every other entry's value unchanged. -/
theorem state_dict_ops_effects (m : MistralLMHeadModel) (d : StateDict) (p : Option String)
    (k : String) (hk : k ∉ (m.my_state_dict p).map Prod.fst) :
    (m.from_state_dict d p).2 = d
    ∧ dictLookup (m.update_state_dict d p) k = dictLookup d k :=
  ⟨rfl, dictLookup_update_of_notin _ _ _ hk⟩

/-- Witness for the amended C7 at the concrete model `m0` and dict `d1x`. -/
theorem state_dict_ops_effects_witness :
    ("x" ∉ (m0.my_state_dict none).map Prod.fst)
    ∧ ((m0.from_state_dict d1x none).2 = d1x
       ∧ dictLookup (m0.update_state_dict d1x none) ("x") = dictLookup d1x ("x")) :=
  ⟨by decide, state_dict_ops_effects m0 d1x none ("x") (by decide)⟩

/-- C8: `from_state_dict` does not mutate the state-dict mapping passed to
it: the unflattened lm-head entries are added to a copy, and the original
mapping's final state equals its initial state. -/
theorem from_state_dict_preserves_input (m : MistralLMHeadModel) (d : StateDict)
    (p : Option String) : (m.from_state_dict d p).2 = d := rfl

/-- C1: exporting the model state via `update_state_dict` and re-importing
it via `from_state_dict` (with the same optional prefix) returns exactly
the original model — in particular its lm-head weights are bit-identical —
for every model whose lm-head stores its weight output-axis-first and
without bias, as `init` and `resize_vocab` produce; so the key remapping
and the flatten/unflatten reshape form an inverse pair on key names and
tensor shapes. -/
theorem lm_head_state_roundtrip (m : MistralLMHeadModel) (d0 : StateDict) (p : Option String)
    (hax : m.lm_head.weight.axes = [m.lm_head.Out, m.lm_head.In])
    (hb : m.lm_head.bias = none) :
    (m.from_state_dict (m.update_state_dict d0 p) p).1 = some m := by
  obtain ⟨⟨cfg, lay⟩, ⟨Vv, ⟨eaxes, edata⟩⟩, ⟨Iax, Oax, ⟨waxes, wdata⟩, bi⟩⟩ := m
  dsimp only at hax hb
  subst hax
  subst hb
  have k12 : apply_prefix p ("model.layers") ≠ apply_prefix p ("model.embed_tokens.weight") :=
    apply_prefix_ne p (by decide)
  have k13 : apply_prefix p ("model.layers") ≠ apply_prefix p ("lm_head.weight") :=
    apply_prefix_ne p (by decide)
  have k23 : apply_prefix p ("model.embed_tokens.weight") ≠ apply_prefix p ("lm_head.weight") :=
    apply_prefix_ne p (by decide)
  set mm : MistralLMHeadModel :=
    ⟨⟨cfg, lay⟩, ⟨Vv, ⟨eaxes, edata⟩⟩, ⟨Iax, Oax, ⟨[Oax, Iax], wdata⟩, none⟩⟩ with hmm
  set te : Tensor := ⟨eaxes.map Axis.size, edata⟩ with hte
  set tw : Tensor := ⟨[Oax.size, Iax.size], wdata⟩ with htw
  have hmy : mm.my_state_dict p =
      [( apply_prefix p ("model.layers"), lay),
       ( apply_prefix p ("model.embed_tokens.weight"), te),
       ( apply_prefix p ("lm_head.weight"), tw)] := by
    simp [hmm, hte, htw, MistralLMHeadModel.my_state_dict,
          MistralLMHeadModel.mixin_update_state_dict, flatten_linear_layers, dictUpdate,
          dictInsert, NamedArray.toTensor, apply_prefix_weight, k12, k13, k23]
  have hupd : mm.update_state_dict d0 p =
      dictInsert (dictInsert (dictInsert d0 ( apply_prefix p ("model.layers")) lay)
        ( apply_prefix p ("model.embed_tokens.weight")) te)
        ( apply_prefix p ("lm_head.weight")) tw := by
    rw [MistralLMHeadModel.update_state_dict, hmy]
    rfl
  set chain : StateDict :=
    dictInsert (dictInsert (dictInsert d0 ( apply_prefix p ("model.layers")) lay)
      ( apply_prefix p ("model.embed_tokens.weight")) te)
      ( apply_prefix p ("lm_head.weight")) tw with hchain
  have hlook3 : dictLookup chain ( apply_prefix p ("lm_head.weight")) = some tw := by
    rw [hchain]
    exact dictLookup_insert_self _ _ _
  have hun : unflatten_linear_layers ( apply_prefix p ("lm_head")) chain mm.lm_head true
      = [( apply_prefix p ("lm_head.weight"), tw)] := by
    simp [unflatten_linear_layers, apply_prefix_weight, hlook3, hmm, htw]
  have hlook1 : dictLookup (dictInsert chain ( apply_prefix p ("lm_head.weight")) tw)
      ( apply_prefix p ("model.layers")) = some lay := by
    rw [dictLookup_insert_ne _ _ _ _ (Ne.symm k13), hchain,
        dictLookup_insert_ne _ _ _ _ (Ne.symm k13),
        dictLookup_insert_ne _ _ _ _ (Ne.symm k12)]
    exact dictLookup_insert_self _ _ _
  have hlook2 : dictLookup (dictInsert chain ( apply_prefix p ("lm_head.weight")) tw)
      ( apply_prefix p ("model.embed_tokens.weight")) = some te := by
    rw [dictLookup_insert_ne _ _ _ _ (Ne.symm k23), hchain,
        dictLookup_insert_ne _ _ _ _ (Ne.symm k23)]
    exact dictLookup_insert_self _ _ _
  have hlook3b : dictLookup (dictInsert chain ( apply_prefix p ("lm_head.weight")) tw)
      ( apply_prefix p ("lm_head.weight")) = some tw :=
    dictLookup_insert_self _ _ _
  rw [hupd]
  show (mm.mixin_from_state_dict
      (dictUpdate (dictCopy chain)
        (unflatten_linear_layers ( apply_prefix p ("lm_head")) chain mm.lm_head true)) p)
    = some mm
  rw [hun]
  show mm.mixin_from_state_dict (dictInsert chain ( apply_prefix p ("lm_head.weight")) tw) p
    = some mm
  simp [MistralLMHeadModel.mixin_from_state_dict, hlook1, hlook2, hlook3b, hmm, hte, htw]

/-- Witness for C1 at the concrete model `m0`, starting from the empty
state dict and no prefix. -/
theorem lm_head_state_roundtrip_witness :
    (m0.lm_head.weight.axes = [m0.lm_head.Out, m0.lm_head.In] ∧ m0.lm_head.bias = none)
    ∧ (m0.from_state_dict (m0.update_state_dict [] none) none).1 = some m0 :=
  ⟨⟨by decide, by decide⟩, lm_head_state_roundtrip m0 [] none (by decide) (by decide)⟩

end Mistral
